import Mathlib

/-!
Shallow embedding of the weather-dashboard repository
(`app/services/weather.py`, `app/api/weather.py`, `app/main.py`).

Outbound HTTP calls are modelled by their observable outcome
(`FetchOutcome`): a parsed payload on success, or one of the failure
modes the Python code distinguishes (`httpx.TimeoutException`,
`httpx.HTTPStatusError` raised by `raise_for_status`, and any other
exception such as a connection error or a malformed/unparsable JSON
body — the latter two are indistinguishable to `except Exception`
handlers and are collapsed into `otherError`).  Numeric JSON fields
are modelled as `Int` (the code never does arithmetic on them);
arbitrary JSON dictionary values are modelled by the small universe
`JVal`, since the code treats them as opaque and passes them through.
-/

/-- Outcome of one outbound HTTP call, as observed by the Python code:
either a successfully parsed payload, or the exception class that the
call raised. -/
inductive FetchOutcome (α : Type) where
  | ok : α → FetchOutcome α
  | timeout : FetchOutcome α
  | httpStatusError : String → FetchOutcome α
  | otherError : String → FetchOutcome α
deriving DecidableEq

/-- One element of the geocoding provider's response array
(`[{lat, lon, name, country, ...}]`). -/
structure GeoEntry where
  lat : Int
  lon : Int
  name : String
  country : String
deriving DecidableEq

/-- The `LocationResult` TypedDict of `app/services/weather.py`. -/
structure LocationResult where
  lat : Int
  lon : Int
  name : String
  country : String
deriving DecidableEq

/-- A JSON dictionary value as far as this code observes it: an opaque
scalar, a string, or the nested location object the service attaches. -/
inductive JVal where
  | num : Int → JVal
  | str : String → JVal
  | loc : LocationResult → JVal
deriving DecidableEq

/-- A JSON object payload: an ordered key/value association list, the
model of a Python `dict` parsed from JSON (keys unique, insertion
ordered). -/
abbrev WeatherPayload := List (String × JVal)

/-- Python `d[k] = v` on a dict: overwrite in place if the key exists
(keeping its position), otherwise append the new key at the end. -/
def setKey : WeatherPayload → String → JVal → WeatherPayload
  | [], k, v => [(k, v)]
  | p :: rest, k, v => if p.1 = k then (k, v) :: rest else p :: setKey rest k v

/-- Python `d.get(k)` on a dict: the value at the key, if present. -/
def getKey (m : WeatherPayload) (k : String) : Option JVal :=
  (m.find? (fun p => p.1 = k)).map Prod.snd

/-- `WeatherService.get_location` (`app/services/weather.py`, lines
149-182): on any exception the `except` clause returns `None`; on a
successful geocode response, `None` when the list is empty, otherwise
the lat/lon/name/country of the first element. -/
def WeatherService.get_location (geo : FetchOutcome (List GeoEntry)) :
    Option LocationResult :=
  match geo with
  | .ok [] => none
  | .ok (location :: _) =>
    some { lat := location.lat, lon := location.lon,
           name := location.name, country := location.country }
  | _ => none

/-- `WeatherService.get_weather` (`app/services/weather.py`, lines
39-90): geocode the city, take the first match, fetch current weather
at its coordinates, attach the resolved location under key
`"location"`; any exception anywhere, or an empty geocode list,
returns `None`. -/
def WeatherService.get_weather (geo : FetchOutcome (List GeoEntry))
    (fetchWeather : Int → Int → FetchOutcome WeatherPayload) :
    Option WeatherPayload :=
  match geo with
  | .ok [] => none
  | .ok (location :: _) =>
    match fetchWeather location.lat location.lon with
    | .ok weather_data =>
      some (setKey weather_data "location"
        (JVal.loc { lat := location.lat, lon := location.lon,
                    name := location.name, country := location.country }))
    | _ => none
  | _ => none

/-! ## Forecast aggregation (`WeatherService.get_monthly_forecast`) -/

/-- The `main` sub-object of one 3-hour forecast sample. -/
structure SampleMain where
  temp : Int
  temp_min : Int
  temp_max : Int
  humidity : Int
deriving DecidableEq

/-- One entry of a sample's `weather` array. -/
structure WeatherCond where
  id : Int
  main : String
  description : String
  icon : String
deriving DecidableEq

/-- One 3-hour forecast sample from the provider's `list` array.
`rain3h` models `item.get('rain', {}).get('3h', 0)`: `none`
when the `rain` object or its `3h` field is absent. -/
structure Sample where
  dt : Nat
  main : SampleMain
  weather : List WeatherCond
  wind_speed : Int
  rain3h : Option Int
deriving DecidableEq

/-- `datetime.fromtimestamp(item['dt']).strftime('%Y-%m-%d')`: the
local calendar date of an epoch timestamp.  Modelled as the day index
under a fixed server timezone (UTC); the `%Y-%m-%d` rendering is
injective on day indices, so the day index is a faithful dict key. -/
def localDate (dt : Nat) : Nat := dt / 86400

/-- The temp object of a daily entry. -/
structure TempTriple where
  day : Int
  min : Int
  max : Int
deriving DecidableEq

/-- One aggregated daily entry, as built at lines 211-222 of
`app/services/weather.py`. -/
structure DailyEntry where
  dt : Nat
  temp : TempTriple
  humidity : Int
  weather : List WeatherCond
  speed : Int
  rain : Int
deriving DecidableEq

/-- The daily entry seeded from a single 3-hour sample (lines 211-222). -/
def seedEntry (item : Sample) : DailyEntry :=
  { dt := item.dt
    temp := { day := item.main.temp, min := item.main.temp_min,
              max := item.main.temp_max }
    humidity := item.main.humidity
    weather := item.weather
    speed := item.wind_speed
    rain := item.rain3h.getD 0 }

/-- The `for item in data['list']` loop of lines 208-222, with
`daily_data` as an insertion-ordered association list (the model of a
Python dict): a sample whose date is already a key is skipped,
otherwise a new entry seeded from the sample is appended. -/
def aggLoop : List (Nat × DailyEntry) → List Sample → List (Nat × DailyEntry)
  | acc, [] => acc
  | acc, item :: rest =>
    if acc.any (fun p => p.1 = localDate item.dt) then aggLoop acc rest
    else aggLoop (acc ++ [(localDate item.dt, seedEntry item)]) rest

/-- The aggregation of the sample list into the `daily_data` dict. -/
def aggregate (items : List Sample) : List (Nat × DailyEntry) :=
  aggLoop [] items

/-- The `city` sub-object of the forecast payload (passed through
unchanged). -/
structure CityInfo where
  id : Int
  name : String
  country : String
deriving DecidableEq

/-- The provider's forecast payload `{city, cod, message, cnt,
list}`; `message` and `cnt` are present in the payload but ignored
by the aggregation. -/
structure ForecastData where
  city : CityInfo
  cod : String
  message : Int
  cnt : Nat
  list : List Sample
deriving DecidableEq

/-- The report built at lines 225-231. -/
structure ForecastReport where
  city : CityInfo
  cod : String
  message : Int
  cnt : Nat
  list : List DailyEntry
deriving DecidableEq

/-- Lines 225-231: the result dict, with `message` forced to `0` and
`cnt` set to `len(daily_data)`. -/
def buildReport (data : ForecastData) : ForecastReport :=
  { city := data.city
    cod := data.cod
    message := 0
    cnt := (aggregate data.list).length
    list := (aggregate data.list).map Prod.snd }

/-- `WeatherService.get_monthly_forecast` (`app/services/weather.py`,
lines 184-237): on a successful fetch and parse, the aggregated
report; on any exception (timeout, connection error, non-2xx status
via `raise_for_status`, malformed payload) the `except` clause
returns `None`. -/
def WeatherService.get_monthly_forecast (fetch : FetchOutcome ForecastData) :
    Option ForecastReport :=
  match fetch with
  | .ok data => some (buildReport data)
  | _ => none

/-! ## HTTP endpoint handlers -/

/-- An HTTPException as raised by the handlers: status code and detail
string. -/
structure HttpError where
  status_code : Nat
  detail : String
deriving DecidableEq

/-- The behaviour of the two remote providers during one request: what
each outbound call would return. -/
structure Env where
  geo : String → FetchOutcome (List GeoEntry)
  weather : Int → Int → FetchOutcome WeatherPayload
  forecast : Int → Int → FetchOutcome ForecastData

/-- One outbound call issued during a request, with its arguments. -/
inductive Call where
  | geo : String → Call
  | weather : Int → Int → Call
  | forecast : Int → Int → Call
deriving DecidableEq

/-- The timeout (seconds) configured on the httpx client of
`app/main.py` `get_weather` (`httpx.AsyncClient(timeout=10.0)`). -/
def mainClientTimeoutSeconds : Nat := 10

/-- `app/main.py` `get_weather` (lines 181-219): fetch current weather
at coordinates; `httpx.TimeoutException` maps to HTTP 504 "Request
timeout", `httpx.HTTPStatusError` to HTTP 500 with the exception text,
any other exception to HTTP 500 "Internal server error: ...". -/
def main_get_weather (fetch : FetchOutcome WeatherPayload) :
    Except HttpError WeatherPayload :=
  match fetch with
  | .ok data => .ok data
  | .timeout => .error { status_code := 504, detail := "Request timeout" }
  | .httpStatusError msg => .error { status_code := 500, detail := msg }
  | .otherError msg =>
    .error { status_code := 500, detail := "Internal server error: " ++ msg }

/-- `app/main.py` `get_city_weather` (lines 237-265), the handler that
serves `GET /api/weather/{city}` — registered on the app before the
router, so it shadows the router's route of the same path.  Returns
the HTTP result together with the trace of outbound calls issued.
An empty city gives 422; a geocode that yields no location (empty
list or any exception, via `get_location`) gives 404 "City not
found"; `HTTPException`s from the weather fetch are re-raised
unchanged by `except HTTPException`; on success the resolved location
is attached to the payload under `"location"`. -/
def get_city_weather (env : Env) (city : String) :
    Except HttpError WeatherPayload × List Call :=
  if city = "" then
    (.error { status_code := 422, detail := "City name cannot be empty" }, [])
  else
    match WeatherService.get_location (env.geo city) with
    | none =>
      (.error { status_code := 404, detail := "City not found" }, [.geo city])
    | some loc =>
      (match main_get_weather (env.weather loc.lat loc.lon) with
       | .ok d => .ok (setKey d "location" (JVal.loc loc))
       | .error e => .error e,
       [.geo city, .weather loc.lat loc.lon])

/-! ## Spec-side descriptions of the aggregation -/

/-- The distinct elements of a list, in order of first appearance. -/
def firstSeen : List Nat → List Nat
  | [] => []
  | d :: ds => d :: firstSeen (ds.filter (fun x => x ≠ d))
termination_by l => l.length
decreasing_by
  simp only [List.length_cons]
  exact Nat.lt_succ_of_le (List.length_filter_le _ _)

/-- Structural form of the aggregation loop: seed an entry from the
head sample and drop every later sample that falls on the same local
date. -/
def specAgg : List Sample → List (Nat × DailyEntry)
  | [] => []
  | s :: ss =>
    (localDate s.dt, seedEntry s) ::
      specAgg (ss.filter (fun t => localDate t.dt ≠ localDate s.dt))
termination_by l => l.length
decreasing_by
  simp only [List.length_cons]
  exact Nat.lt_succ_of_le (List.length_filter_le _ _)

/-- The aggregation as the spec phrases it: one entry per distinct
local calendar date, ordered by first appearance of the date, each
entry seeded from the first sample of its date. -/
def specDaily (items : List Sample) : List DailyEntry :=
  (firstSeen (items.map fun s => localDate s.dt)).filterMap
    (fun d => (items.find? (fun t => localDate t.dt == d)).map seedEntry)

/-- Whether a call is a geocode call. -/
def isGeoCall : Call → Bool
  | .geo _ => true
  | _ => false

/-- Whether a call is a weather or forecast fetch. -/
def isFetchCall : Call → Bool
  | .geo _ => false
  | _ => true

/-! ## Concrete inputs used by the witnesses -/

/-- A concrete geocoding match. -/
def geoLondon : GeoEntry := { lat := 51, lon := 0, name := "London", country := "GB" }

/-- Three concrete 3-hour samples spanning two local calendar dates
(day indices 20000 and 20001); the second falls on the first's date. -/
def sampleA : Sample :=
  { dt := 20000 * 86400 + 3600
    main := { temp := 280, temp_min := 279, temp_max := 283, humidity := 70 }
    weather := [{ id := 500, main := "Rain", description := "light rain", icon := "10d" }]
    wind_speed := 5
    rain3h := some 2 }

/-- Second sample, same date as `sampleA`. -/
def sampleB : Sample :=
  { dt := 20000 * 86400 + 7200
    main := { temp := 285, temp_min := 284, temp_max := 286, humidity := 60 }
    weather := [{ id := 800, main := "Clear", description := "clear sky", icon := "01d" }]
    wind_speed := 3
    rain3h := none }

/-- Third sample, on the following date. -/
def sampleC : Sample :=
  { dt := 20001 * 86400 + 3600
    main := { temp := 290, temp_min := 288, temp_max := 291, humidity := 50 }
    weather := [{ id := 801, main := "Clouds", description := "few clouds", icon := "02d" }]
    wind_speed := 4
    rain3h := none }

/-- A concrete forecast payload over the three samples, with nonzero
`message` and a `cnt` different from the number of distinct dates. -/
def dataABC : ForecastData :=
  { city := { id := 2643743, name := "London", country := "GB" }
    cod := "200"
    message := 7
    cnt := 3
    list := [sampleA, sampleB, sampleC] }

/-- Provider behaviour: geocoding finds nothing; the fetches fail. -/
def envNoMatch : Env :=
  { geo := fun _ => .ok []
    weather := fun _ _ => .otherError "unreachable"
    forecast := fun _ _ => .otherError "unreachable" }

/-- Provider behaviour: geocoding resolves to `geoLondon` and both
fetches succeed. -/
def envLondonOk : Env :=
  { geo := fun _ => .ok [geoLondon]
    weather := fun _ _ => .ok [("name", JVal.str "London"), ("cod", JVal.num 200)]
    forecast := fun _ _ => .ok dataABC }

/-- Provider behaviour: geocoding resolves to `geoLondon` and both
fetches time out. -/
def envLondonTimeout : Env :=
  { geo := fun _ => .ok [geoLondon]
    weather := fun _ _ => .timeout
    forecast := fun _ _ => .timeout }

/-- The body of the `try` block of `get_monthly_weather`
(`app/api/weather.py`, lines 44-65): resolve the city (404 when no
location), fetch and aggregate the forecast (500 when it fails),
otherwise return the report. -/
def get_monthly_weather_try (env : Env) (city : String) :
    Except HttpError ForecastReport × List Call :=
  match WeatherService.get_location (env.geo city) with
  | none =>
    (.error { status_code := 404,
              detail := "City \x27" ++ city ++ "\x27 not found" },
     [.geo city])
  | some loc =>
    match WeatherService.get_monthly_forecast (env.forecast loc.lat loc.lon) with
    | none =>
      (.error { status_code := 500, detail := "Failed to fetch forecast data" },
       [.geo city, .forecast loc.lat loc.lon])
    | some forecast =>
      (.ok forecast, [.geo city, .forecast loc.lat loc.lon])

/-- `get_monthly_weather` (`app/api/weather.py`, lines 38-72), the
handler for `GET /api/weather/monthly/{city}`.  The `except Exception`
clause also catches the `HTTPException`s raised inside the `try`
block (FastAPI's `HTTPException` subclasses `Exception`), so every
error raised there — including the intended 404 — reaches the client
as 500 "Internal server error". -/
def get_monthly_weather (env : Env) (city : String) :
    Except HttpError ForecastReport × List Call :=
  if city = "" then
    (.error { status_code := 404, detail := "City not found" }, [])
  else
    match get_monthly_weather_try env city with
    | (.ok r, tr) => (.ok r, tr)
    | (.error _, tr) =>
      (.error { status_code := 500, detail := "Internal server error" }, tr)

/-! ## Helper lemmas -/

theorem mem_firstSeen (l : List Nat) (x : Nat) : x ∈ firstSeen l ↔ x ∈ l := by
  induction l using firstSeen.induct with
  | case1 => simp [firstSeen]
  | case2 d ds ih =>
    rw [firstSeen, List.mem_cons, ih]
    by_cases hx : x = d
    · simp [hx]
    · simp [List.mem_filter, hx]

theorem firstSeen_nodup (l : List Nat) : (firstSeen l).Nodup := by
  induction l using firstSeen.induct with
  | case1 => simp [firstSeen]
  | case2 d ds ih =>
    rw [firstSeen]
    refine List.nodup_cons.mpr ⟨fun hmem => ?_, ih⟩
    have := (mem_firstSeen _ _).mp hmem
    simp [List.mem_filter] at this

theorem toFinset_firstSeen (l : List Nat) : (firstSeen l).toFinset = l.toFinset := by
  ext x
  simp [List.mem_toFinset, mem_firstSeen]

theorem length_firstSeen (l : List Nat) : (firstSeen l).length = l.toFinset.card := by
  rw [← toFinset_firstSeen, List.toFinset_card_of_nodup (firstSeen_nodup l)]

theorem map_localDate_filter (ss : List Sample) (d : Nat) :
    (ss.filter fun t => localDate t.dt ≠ d).map (fun s => localDate s.dt)
      = (ss.map fun s => localDate s.dt).filter (fun x => x ≠ d) := by
  induction ss with
  | nil => rfl
  | cons s ss ih =>
    rw [List.filter_cons, List.map_cons, List.filter_cons]
    by_cases h : localDate s.dt = d
    · rw [if_neg (by simp [h]), if_neg (by simp [h]), ih]
    · rw [if_pos (by simp [h]), if_pos (by simp [h]), List.map_cons, ih]

theorem find?_filter_of_imp {α : Type} (l : List α) (p q : α → Bool)
    (h : ∀ x, p x = true → q x = true) : (l.filter q).find? p = l.find? p := by
  induction l with
  | nil => rfl
  | cons x l ih =>
    by_cases hq : q x = true
    · rw [List.filter_cons, if_pos hq]
      by_cases hp : p x = true
      · rw [List.find?_cons_of_pos _ hp, List.find?_cons_of_pos _ hp]
      · rw [List.find?_cons_of_neg _ hp, List.find?_cons_of_neg _ hp, ih]
    · rw [List.filter_cons, if_neg hq, ih]
      have hp : ¬ p x = true := fun hpx => hq (h x hpx)
      rw [List.find?_cons_of_neg _ hp]

theorem aggLoop_eq_specAgg (items : List Sample) :
    ∀ acc : List (Nat × DailyEntry),
      aggLoop acc items
        = acc ++ specAgg (items.filter fun s => !acc.any fun p => p.1 = localDate s.dt) := by
  induction items with
  | nil => intro acc; simp [aggLoop, specAgg]
  | cons item rest ih =>
    intro acc
    by_cases h : acc.any (fun p => p.1 = localDate item.dt) = true
    · rw [aggLoop, if_pos h, ih]
      congr 2
      rw [List.filter_cons]
      simp [h]
    · rw [aggLoop, if_neg h, ih, List.append_assoc]
      congr 1
      rw [List.filter_cons]
      have hkeep : (!acc.any fun p => p.1 = localDate item.dt) = true := by
        simp [h]
      rw [if_pos hkeep, specAgg]
      rw [List.singleton_append]
      congr 2
      rw [List.filter_filter]
      apply List.filter_congr
      intro x _
      by_cases hd : localDate x.dt = localDate item.dt
      · simp [List.any_append, hd]
      · by_cases ha : acc.any (fun p => p.1 = localDate x.dt) = true
        · simp [List.any_append, ha]
        · simp [List.any_append, ha, hd, Ne.symm hd]

theorem aggregate_eq_specAgg (items : List Sample) : aggregate items = specAgg items := by
  rw [aggregate, aggLoop_eq_specAgg]
  simp

theorem specAgg_map_fst (items : List Sample) :
    (specAgg items).map Prod.fst = firstSeen (items.map fun s => localDate s.dt) := by
  induction items using specAgg.induct with
  | case1 => simp [specAgg, firstSeen]
  | case2 s ss ih =>
    rw [specAgg, List.map_cons, List.map_cons, firstSeen, ← map_localDate_filter, ih]

theorem specAgg_find (items : List Sample) :
    ∀ d e, (d, e) ∈ specAgg items →
      ∃ s, items.find? (fun t => localDate t.dt == d) = some s ∧
        localDate s.dt = d ∧ e = seedEntry s := by
  induction items using specAgg.induct with
  | case1 => intro d e h; simp [specAgg] at h
  | case2 s ss ih =>
    intro d e h
    rw [specAgg, List.mem_cons] at h
    rcases h with h | h
    · have hd : d = localDate s.dt := congrArg Prod.fst h
      have he : e = seedEntry s := congrArg Prod.snd h
      refine ⟨s, ?_, hd.symm, he⟩
      exact List.find?_cons_of_pos _ (by simp [hd])
    · obtain ⟨t, hfind, hdt, he⟩ := ih d e h
      have ht_mem : t ∈ ss.filter (fun u => localDate u.dt ≠ localDate s.dt) :=
        List.mem_of_find?_eq_some hfind
      have htne : localDate t.dt ≠ localDate s.dt := by
        have := (List.mem_filter.mp ht_mem).2
        simpa using this
      have hdne : d ≠ localDate s.dt := hdt ▸ htne
      have himp : ∀ x : Sample, (localDate x.dt == d) = true →
          (decide (localDate x.dt ≠ localDate s.dt)) = true := by
        intro x hx
        have hxd : localDate x.dt = d := by simpa using hx
        simp [hxd, hdne]
      refine ⟨t, ?_, hdt, he⟩
      rw [List.find?_cons_of_neg _ (by simp [Ne.symm hdne]),
          ← find?_filter_of_imp ss _ _ himp]
      exact hfind

theorem specAgg_map_snd (items : List Sample) :
    (specAgg items).map Prod.snd = specDaily items := by
  induction items using specAgg.induct with
  | case1 => simp [specAgg, specDaily, firstSeen]
  | case2 s ss ih =>
    rw [specAgg, List.map_cons, ih]
    conv_rhs => rw [specDaily]
    rw [List.map_cons, firstSeen, List.filterMap_cons]
    have hfind : (s :: ss).find? (fun t => localDate t.dt == localDate s.dt) = some s :=
      List.find?_cons_of_pos _ (by simp)
    simp only [hfind, Option.map_some']
    congr 1
    rw [specDaily, map_localDate_filter]
    apply List.filterMap_congr
    intro x hx
    have hxd : x ≠ localDate s.dt := by
      have hx1 := (mem_firstSeen _ _).mp hx
      have := (List.mem_filter.mp hx1).2
      simpa using this
    have himp : ∀ y : Sample, (localDate y.dt == x) = true →
        (decide (localDate y.dt ≠ localDate s.dt)) = true := by
      intro y hy
      have : localDate y.dt = x := by simpa using hy
      simp [this, hxd]
    rw [find?_filter_of_imp ss _ _ himp,
        List.find?_cons_of_neg _ (by simp [Ne.symm hxd])]

theorem getKey_setKey_self (m : WeatherPayload) (k : String) (v : JVal) :
    getKey (setKey m k v) k = some v := by
  induction m with
  | nil =>
    rw [setKey, getKey, List.find?_cons_of_pos _ (by simp)]
    rfl
  | cons p rest ih =>
    rw [setKey]
    by_cases h : p.1 = k
    · rw [if_pos h, getKey, List.find?_cons_of_pos _ (by simp)]
      rfl
    · rw [if_neg h, getKey, List.find?_cons_of_neg _ (by simp [h])]
      exact ih

theorem getKey_setKey_of_ne (m : WeatherPayload) (k k' : String) (v : JVal)
    (h : k' ≠ k) : getKey (setKey m k v) k' = getKey m k' := by
  induction m with
  | nil =>
    rw [setKey, getKey, List.find?_cons_of_neg _ (by simp [Ne.symm h])]
    rfl
  | cons p rest ih =>
    rw [setKey]
    by_cases h1 : p.1 = k
    · rw [if_pos h1, getKey, getKey,
          List.find?_cons_of_neg _ (by simp [Ne.symm h]),
          List.find?_cons_of_neg _ (by simp [h1, Ne.symm h])]
    · rw [if_neg h1]
      by_cases h2 : p.1 = k'
      · rw [getKey, getKey, List.find?_cons_of_pos _ (by simp [h2]),
            List.find?_cons_of_pos _ (by simp [h2])]
      · rw [getKey, getKey, List.find?_cons_of_neg _ (by simp [h2]),
            List.find?_cons_of_neg _ (by simp [h2])]
        exact ih

theorem keys_setKey (m : WeatherPayload) (k : String) (v : JVal) :
    (setKey m k v).map Prod.fst =
      if k ∈ m.map Prod.fst then m.map Prod.fst else m.map Prod.fst ++ [k] := by
  induction m with
  | nil => simp [setKey]
  | cons p rest ih =>
    rw [setKey]
    by_cases h : p.1 = k
    · rw [if_pos h]
      simp [h]
    · rw [if_neg h]
      simp only [List.map_cons, ih]
      by_cases hk : k ∈ rest.map Prod.fst
      · simp [hk, List.mem_cons, Ne.symm h]
      · simp [hk, List.mem_cons, Ne.symm h]

theorem get_location_some_inv {geo : FetchOutcome (List GeoEntry)}
    {loc : LocationResult} (h : WeatherService.get_location geo = some loc) :
    ∃ l rest, geo = FetchOutcome.ok (l :: rest) ∧
      loc = { lat := l.lat, lon := l.lon, name := l.name, country := l.country } := by
  cases geo with
  | ok locs =>
    cases locs with
    | nil => simp [WeatherService.get_location] at h
    | cons l rest =>
      simp only [WeatherService.get_location, Option.some.injEq] at h
      exact ⟨l, rest, rfl, h.symm⟩
  | timeout => simp [WeatherService.get_location] at h
  | httpStatusError msg => simp [WeatherService.get_location] at h
  | otherError msg => simp [WeatherService.get_location] at h

/-! ## Claim theorems -/

/-- C1: for a provider forecast payload whose samples are in
chronological order and span D distinct local calendar dates,
`get_monthly_forecast` returns a report whose list has exactly D
entries — one per distinct date, ordered by first appearance of the
date (`specDaily`), each seeded entirely from the first sample of its
date with rain defaulting to 0, every later sample of an already-seen
date being discarded. -/
theorem get_monthly_forecast_daily_aggregation (data : ForecastData)
    (hchron : data.list.Chain' (fun a b => a.dt ≤ b.dt)) :
    ∃ r, WeatherService.get_monthly_forecast (.ok data) = some r ∧
      r.list.length = ((data.list.map fun s => localDate s.dt).toFinset).card ∧
      r.list = specDaily data.list ∧
      (aggregate data.list).map Prod.fst
        = firstSeen (data.list.map fun s => localDate s.dt) ∧
      ∀ d e, (d, e) ∈ aggregate data.list →
        ∃ s, data.list.find? (fun t => localDate t.dt == d) = some s ∧
          localDate s.dt = d ∧ e = seedEntry s := by
  refine ⟨buildReport data, rfl, ?_, ?_, ?_, ?_⟩
  · show ((aggregate data.list).map Prod.snd).length = _
    rw [List.length_map, ← List.length_map (aggregate data.list) Prod.fst,
        aggregate_eq_specAgg, specAgg_map_fst, length_firstSeen]
  · show (aggregate data.list).map Prod.snd = specDaily data.list
    rw [aggregate_eq_specAgg, specAgg_map_snd]
  · rw [aggregate_eq_specAgg, specAgg_map_fst]
  · intro d e hmem
    rw [aggregate_eq_specAgg] at hmem
    exact specAgg_find data.list d e hmem

/-- Witness for C1 at a concrete payload: three chronological samples
over two dates. -/
theorem get_monthly_forecast_daily_aggregation_witness :
    dataABC.list.Chain' (fun a b => a.dt ≤ b.dt) ∧
      (∃ r, WeatherService.get_monthly_forecast (.ok dataABC) = some r ∧
        r.list.length = ((dataABC.list.map fun s => localDate s.dt).toFinset).card ∧
        r.list = specDaily dataABC.list ∧
        (aggregate dataABC.list).map Prod.fst
          = firstSeen (dataABC.list.map fun s => localDate s.dt) ∧
        ∀ d e, (d, e) ∈ aggregate dataABC.list →
          ∃ s, dataABC.list.find? (fun t => localDate t.dt == d) = some s ∧
            localDate s.dt = d ∧ e = seedEntry s) :=
  ⟨by simp [dataABC, sampleA, sampleB, sampleC, List.chain'_cons],
    get_monthly_forecast_daily_aggregation dataABC
      (by simp [dataABC, sampleA, sampleB, sampleC, List.chain'_cons])⟩

/-- C2 (code-bug evidence): on `GET /api/weather/monthly/{city}` with a
geocoder that resolves no location, the handler answers HTTP 500
"Internal server error" — not the 404 it tries to raise, because its
`except Exception` clause also catches the `HTTPException(404)`.  The
other arms of the claim hold: forecast-fetch failure gives 500, and
the success path returns 200 with the aggregated report. -/
theorem monthly_endpoint_unresolved_city_is_500 :
    (get_monthly_weather envNoMatch "Erewhon").1
        = .error { status_code := 500, detail := "Internal server error" } ∧
      (get_monthly_weather envLondonTimeout "London").1
        = .error { status_code := 500, detail := "Internal server error" } ∧
      (get_monthly_weather envLondonOk "London").1 = .ok (buildReport dataABC) ∧
      (500 : Nat) ≠ 404 := by
  refine ⟨rfl, rfl, rfl, by decide⟩

/-- C3: on `GET /api/weather/{city}` (served by `get_city_weather` of
`app/main.py`, which re-raises `HTTPException`s), a non-empty city for
which the geocoding provider returns zero matches yields HTTP 404 with
detail "City not found". -/
theorem city_weather_unresolved_city_404 (env : Env) (city : String)
    (hc : city ≠ "") (hgeo : env.geo city = .ok []) :
    (get_city_weather env city).1
      = .error { status_code := 404, detail := "City not found" } := by
  rw [get_city_weather, if_neg hc, hgeo]
  rfl

/-- Witness for C3: concrete environment whose geocoder finds nothing. -/
theorem city_weather_unresolved_city_404_witness :
    ("Erewhon" ≠ "") ∧ envNoMatch.geo "Erewhon" = .ok [] ∧
      (get_city_weather envNoMatch "Erewhon").1
        = .error { status_code := 404, detail := "City not found" } :=
  ⟨by decide, rfl,
    city_weather_unresolved_city_404 envNoMatch "Erewhon" (by decide) rfl⟩

/-- C4: location resolution on a geocoding response list returns `none`
exactly for the empty list, and otherwise the lat, lon, name and
country of the first element, ignoring all later elements. -/
theorem get_location_first_match :
    WeatherService.get_location (.ok ([] : List GeoEntry)) = none ∧
      ∀ (l : GeoEntry) (rest : List GeoEntry),
        WeatherService.get_location (.ok (l :: rest))
          = some { lat := l.lat, lon := l.lon, name := l.name, country := l.country } :=
  ⟨rfl, fun _ _ => rfl⟩

/-- C5: when geocoding yields a first match and the weather fetch at
its coordinates succeeds, `WeatherService.get_weather` returns the
provider payload with exactly the key "location" set to the resolved
location: the value at "location" is the resolved location, every
other key's value is unchanged (unrecognized extra fields included),
and the key set is the payload's key set plus at most "location". -/
theorem get_weather_merges_location_only (l : GeoEntry) (rest : List GeoEntry)
    (fetchWeather : Int → Int → FetchOutcome WeatherPayload)
    (payload : WeatherPayload)
    (hfetch : fetchWeather l.lat l.lon = .ok payload) :
    WeatherService.get_weather (.ok (l :: rest)) fetchWeather
        = some (setKey payload "location"
            (JVal.loc { lat := l.lat, lon := l.lon, name := l.name, country := l.country })) ∧
      getKey (setKey payload "location"
          (JVal.loc { lat := l.lat, lon := l.lon, name := l.name, country := l.country }))
          "location"
        = some (JVal.loc { lat := l.lat, lon := l.lon, name := l.name, country := l.country }) ∧
      (∀ k, k ≠ "location" →
        getKey (setKey payload "location"
            (JVal.loc { lat := l.lat, lon := l.lon, name := l.name, country := l.country })) k
          = getKey payload k) ∧
      (setKey payload "location"
          (JVal.loc { lat := l.lat, lon := l.lon, name := l.name, country := l.country })).map
          Prod.fst
        = (if "location" ∈ payload.map Prod.fst then payload.map Prod.fst
           else payload.map Prod.fst ++ ["location"]) := by
  refine ⟨?_, getKey_setKey_self _ _ _, fun k hk => getKey_setKey_of_ne _ _ _ _ hk,
    keys_setKey _ _ _⟩
  simp only [WeatherService.get_weather, hfetch]

/-- Witness for C5: London resolved, fetch returning a payload with an
extra unrecognized field. -/
theorem get_weather_merges_location_only_witness :
    envLondonOk.weather geoLondon.lat geoLondon.lon
        = .ok [("name", JVal.str "London"), ("cod", JVal.num 200)] ∧
      (WeatherService.get_weather (.ok (geoLondon :: []) ) envLondonOk.weather
          = some (setKey [("name", JVal.str "London"), ("cod", JVal.num 200)] "location"
              (JVal.loc { lat := geoLondon.lat, lon := geoLondon.lon,
                          name := geoLondon.name, country := geoLondon.country })) ∧
        getKey (setKey [("name", JVal.str "London"), ("cod", JVal.num 200)] "location"
            (JVal.loc { lat := geoLondon.lat, lon := geoLondon.lon,
                        name := geoLondon.name, country := geoLondon.country }))
            "location"
          = some (JVal.loc { lat := geoLondon.lat, lon := geoLondon.lon,
                             name := geoLondon.name, country := geoLondon.country }) ∧
        (∀ k, k ≠ "location" →
          getKey (setKey [("name", JVal.str "London"), ("cod", JVal.num 200)] "location"
              (JVal.loc { lat := geoLondon.lat, lon := geoLondon.lon,
                          name := geoLondon.name, country := geoLondon.country })) k
            = getKey [("name", JVal.str "London"), ("cod", JVal.num 200)] k) ∧
        (setKey [("name", JVal.str "London"), ("cod", JVal.num 200)] "location"
            (JVal.loc { lat := geoLondon.lat, lon := geoLondon.lon,
                        name := geoLondon.name, country := geoLondon.country })).map
            Prod.fst
          = (if "location" ∈ ([("name", JVal.str "London"), ("cod", JVal.num 200)] :
                WeatherPayload).map Prod.fst
             then ([("name", JVal.str "London"), ("cod", JVal.num 200)] :
                WeatherPayload).map Prod.fst
             else ([("name", JVal.str "London"), ("cod", JVal.num 200)] :
                WeatherPayload).map Prod.fst ++ ["location"])) :=
  ⟨rfl, get_weather_merges_location_only geoLondon []
    envLondonOk.weather [("name", JVal.str "London"), ("cod", JVal.num 200)] rfl⟩

/-- C6: the current-weather client of `app/main.py` is constructed
with a 10-second timeout; a timeout maps to HTTP 504 "Request
timeout", distinct from the 500 used for HTTP-status and other remote
failures, and the 504 propagates unchanged through the
`/api/weather/{city}` handler. -/
theorem main_get_weather_timeout_504 :
    mainClientTimeoutSeconds = 10 ∧
      main_get_weather .timeout
        = .error { status_code := 504, detail := "Request timeout" } ∧
      (∀ msg, main_get_weather (.httpStatusError msg)
          = .error { status_code := 500, detail := msg }) ∧
      (∀ msg, main_get_weather (.otherError msg)
          = .error { status_code := 500, detail := "Internal server error: " ++ msg }) ∧
      (504 : Nat) ≠ 500 ∧
      ∀ env city l rest, city ≠ "" → env.geo city = .ok (l :: rest) →
        env.weather l.lat l.lon = .timeout →
        (get_city_weather env city).1
          = .error { status_code := 504, detail := "Request timeout" } := by
  refine ⟨rfl, rfl, fun _ => rfl, fun _ => rfl, by decide, ?_⟩
  intro env city l rest hc hgeo hweather
  rw [get_city_weather, if_neg hc, hgeo]
  simp only [WeatherService.get_location, hweather, main_get_weather]

/-- Witness for C6: concrete environment whose weather call times out. -/
theorem main_get_weather_timeout_504_witness :
    ("London" ≠ "") ∧ envLondonTimeout.geo "London" = .ok (geoLondon :: []) ∧
      envLondonTimeout.weather geoLondon.lat geoLondon.lon = .timeout ∧
      (get_city_weather envLondonTimeout "London").1
        = .error { status_code := 504, detail := "Request timeout" } :=
  ⟨by decide, rfl, rfl,
    main_get_weather_timeout_504.2.2.2.2.2 envLondonTimeout "London" geoLondon []
      (by decide) rfl rfl⟩

/-- C7: every failure of the forecast fetch — timeout, connection
error or malformed payload (`otherError`), or a non-success HTTP
status — makes `get_monthly_forecast` return `None`, never a
partially built report. -/
theorem get_monthly_forecast_failure_none :
    WeatherService.get_monthly_forecast .timeout = none ∧
      (∀ msg, WeatherService.get_monthly_forecast (.httpStatusError msg) = none) ∧
      (∀ msg, WeatherService.get_monthly_forecast (.otherError msg) = none) :=
  ⟨rfl, fun _ => rfl, fun _ => rfl⟩

/-- C8: each request to the current-weather or monthly-forecast
endpoint issues at most one geocode call and at most one
weather/forecast call, and the fetch call uses exactly the
coordinates of the first match produced by the single geocode call
(the location is never re-resolved within the request). -/
theorem one_geocode_one_fetch_per_request (env : Env) (city : String) :
    ((get_city_weather env city).2.countP isGeoCall ≤ 1 ∧
      (get_city_weather env city).2.countP isFetchCall ≤ 1 ∧
      ∀ lat lon, Call.weather lat lon ∈ (get_city_weather env city).2 →
        ∃ l rest, env.geo city = .ok (l :: rest) ∧ lat = l.lat ∧ lon = l.lon) ∧
    ((get_monthly_weather env city).2.countP isGeoCall ≤ 1 ∧
      (get_monthly_weather env city).2.countP isFetchCall ≤ 1 ∧
      ∀ lat lon, Call.forecast lat lon ∈ (get_monthly_weather env city).2 →
        ∃ l rest, env.geo city = .ok (l :: rest) ∧ lat = l.lat ∧ lon = l.lon) := by
  constructor
  · by_cases hc : city = ""
    · have htr : (get_city_weather env city).2 = [] := by
        rw [get_city_weather, if_pos hc]
      rw [htr]
      refine ⟨by simp, by simp, ?_⟩
      intro lat lon h
      simp at h
    · rcases hl : WeatherService.get_location (env.geo city) with _ | loc
      · have htr : (get_city_weather env city).2 = [Call.geo city] := by
          rw [get_city_weather, if_neg hc, hl]
        rw [htr]
        refine ⟨by simp [List.countP_cons, isGeoCall],
          by simp [List.countP_cons, isFetchCall], ?_⟩
        intro lat lon h
        simp at h
      · obtain ⟨l, rest, hgeo, hloc⟩ := get_location_some_inv hl
        have htr : (get_city_weather env city).2
            = [Call.geo city, Call.weather loc.lat loc.lon] := by
          rw [get_city_weather, if_neg hc, hl]
        rw [htr]
        refine ⟨by simp [List.countP_cons, isGeoCall],
          by simp [List.countP_cons, isFetchCall], ?_⟩
        intro lat lon h
        simp at h
        obtain ⟨h1, h2⟩ := h
        exact ⟨l, rest, hgeo, by rw [h1, hloc], by rw [h2, hloc]⟩
  · by_cases hc : city = ""
    · have htr : (get_monthly_weather env city).2 = [] := by
        rw [get_monthly_weather, if_pos hc]
      rw [htr]
      refine ⟨by simp, by simp, ?_⟩
      intro lat lon h
      simp at h
    · rcases hl : WeatherService.get_location (env.geo city) with _ | loc
      · have htr : (get_monthly_weather env city).2 = [Call.geo city] := by
          rw [get_monthly_weather, if_neg hc, get_monthly_weather_try, hl]
        rw [htr]
        refine ⟨by simp [List.countP_cons, isGeoCall],
          by simp [List.countP_cons, isFetchCall], ?_⟩
        intro lat lon h
        simp at h
      · obtain ⟨l, rest, hgeo, hloc⟩ := get_location_some_inv hl
        rcases hf : WeatherService.get_monthly_forecast (env.forecast loc.lat loc.lon)
          with _ | fc
        · have htr : (get_monthly_weather env city).2
              = [Call.geo city, Call.forecast loc.lat loc.lon] := by
            rw [get_monthly_weather, if_neg hc, get_monthly_weather_try]
            simp only [hl, hf]
          rw [htr]
          refine ⟨by simp [List.countP_cons, isGeoCall],
            by simp [List.countP_cons, isFetchCall], ?_⟩
          intro lat lon h
          simp at h
          obtain ⟨h1, h2⟩ := h
          exact ⟨l, rest, hgeo, by rw [h1, hloc], by rw [h2, hloc]⟩
        · have htr : (get_monthly_weather env city).2
              = [Call.geo city, Call.forecast loc.lat loc.lon] := by
            rw [get_monthly_weather, if_neg hc, get_monthly_weather_try]
            simp only [hl, hf]
          rw [htr]
          refine ⟨by simp [List.countP_cons, isGeoCall],
            by simp [List.countP_cons, isFetchCall], ?_⟩
          intro lat lon h
          simp at h
          obtain ⟨h1, h2⟩ := h
          exact ⟨l, rest, hgeo, by rw [h1, hloc], by rw [h2, hloc]⟩

/-- Witness for C8 at a concrete environment and city. -/
theorem one_geocode_one_fetch_per_request_witness :
    ((get_city_weather envLondonOk "London").2.countP isGeoCall ≤ 1 ∧
      (get_city_weather envLondonOk "London").2.countP isFetchCall ≤ 1 ∧
      ∀ lat lon, Call.weather lat lon ∈ (get_city_weather envLondonOk "London").2 →
        ∃ l rest, envLondonOk.geo "London" = .ok (l :: rest) ∧ lat = l.lat ∧ lon = l.lon) ∧
    ((get_monthly_weather envLondonOk "London").2.countP isGeoCall ≤ 1 ∧
      (get_monthly_weather envLondonOk "London").2.countP isFetchCall ≤ 1 ∧
      ∀ lat lon, Call.forecast lat lon ∈ (get_monthly_weather envLondonOk "London").2 →
        ∃ l rest, envLondonOk.geo "London" = .ok (l :: rest) ∧ lat = l.lat ∧ lon = l.lon) :=
  one_geocode_one_fetch_per_request envLondonOk "London"

/-- C9: `WeatherService.get_weather` returns `None` both when the
geocoder returns zero matches and when either outbound call raises
(timeout, non-success status, malformed payload), so a `None` result
does not distinguish "city not found" from "provider failed". -/
theorem get_weather_none_on_failure
    (fetchWeather : Int → Int → FetchOutcome WeatherPayload) (msg : String)
    (l : GeoEntry) (rest : List GeoEntry) :
    WeatherService.get_weather (.ok []) fetchWeather = none ∧
      WeatherService.get_weather .timeout fetchWeather = none ∧
      WeatherService.get_weather (.httpStatusError msg) fetchWeather = none ∧
      WeatherService.get_weather (.otherError msg) fetchWeather = none ∧
      (fetchWeather l.lat l.lon = .timeout →
        WeatherService.get_weather (.ok (l :: rest)) fetchWeather = none) ∧
      (fetchWeather l.lat l.lon = .httpStatusError msg →
        WeatherService.get_weather (.ok (l :: rest)) fetchWeather = none) ∧
      (fetchWeather l.lat l.lon = .otherError msg →
        WeatherService.get_weather (.ok (l :: rest)) fetchWeather = none) := by
  refine ⟨rfl, rfl, rfl, rfl, ?_, ?_, ?_⟩ <;>
    (intro h; simp only [WeatherService.get_weather, h])

/-- Witness for C9 at a concrete fetch function that times out. -/
theorem get_weather_none_on_failure_witness :
    WeatherService.get_weather (.ok []) (fun _ _ => (FetchOutcome.timeout : FetchOutcome WeatherPayload)) = none ∧
      WeatherService.get_weather .timeout (fun _ _ => (FetchOutcome.timeout : FetchOutcome WeatherPayload)) = none ∧
      WeatherService.get_weather (.httpStatusError "boom")
        (fun _ _ => (FetchOutcome.timeout : FetchOutcome WeatherPayload)) = none ∧
      WeatherService.get_weather (.otherError "boom")
        (fun _ _ => (FetchOutcome.timeout : FetchOutcome WeatherPayload)) = none ∧
      ((fun _ _ => (FetchOutcome.timeout : FetchOutcome WeatherPayload)) geoLondon.lat geoLondon.lon
          = FetchOutcome.timeout →
        WeatherService.get_weather (.ok (geoLondon :: []))
          (fun _ _ => (FetchOutcome.timeout : FetchOutcome WeatherPayload)) = none) ∧
      ((fun _ _ => (FetchOutcome.timeout : FetchOutcome WeatherPayload)) geoLondon.lat geoLondon.lon
          = FetchOutcome.httpStatusError "boom" →
        WeatherService.get_weather (.ok (geoLondon :: []))
          (fun _ _ => (FetchOutcome.timeout : FetchOutcome WeatherPayload)) = none) ∧
      ((fun _ _ => (FetchOutcome.timeout : FetchOutcome WeatherPayload)) geoLondon.lat geoLondon.lon
          = FetchOutcome.otherError "boom" →
        WeatherService.get_weather (.ok (geoLondon :: []))
          (fun _ _ => (FetchOutcome.timeout : FetchOutcome WeatherPayload)) = none) :=
  get_weather_none_on_failure (fun _ _ => (FetchOutcome.timeout : FetchOutcome WeatherPayload)) "boom" geoLondon []

/-- C10: every report returned by `get_monthly_forecast` has `cnt`
equal to the length of its `list` and `message` equal to 0, whatever
`cnt` and `message` values the provider payload carried. -/
theorem report_cnt_matches_list_and_message_zero
    (fetch : FetchOutcome ForecastData) (r : ForecastReport)
    (h : WeatherService.get_monthly_forecast fetch = some r) :
    r.cnt = r.list.length ∧ r.message = 0 := by
  cases fetch with
  | ok data =>
    simp only [WeatherService.get_monthly_forecast, Option.some.injEq] at h
    subst h
    refine ⟨?_, rfl⟩
    show (aggregate data.list).length = ((aggregate data.list).map Prod.snd).length
    rw [List.length_map]
  | timeout => simp [WeatherService.get_monthly_forecast] at h
  | httpStatusError msg => simp [WeatherService.get_monthly_forecast] at h
  | otherError msg => simp [WeatherService.get_monthly_forecast] at h

/-- Witness for C10 at a payload whose own `cnt` (3) and `message` (7)
differ from the report's. -/
theorem report_cnt_matches_list_and_message_zero_witness :
    WeatherService.get_monthly_forecast (.ok dataABC) = some (buildReport dataABC) ∧
      ((buildReport dataABC).cnt = (buildReport dataABC).list.length ∧
        (buildReport dataABC).message = 0) :=
  ⟨rfl, report_cnt_matches_list_and_message_zero (.ok dataABC) (buildReport dataABC) rfl⟩
